import Mathlib

/-!
Verification of the single-file commerce system (users, products, orders).

The Python source is shallowly embedded: each class becomes a structure,
each raising method becomes a function into Except, and the mutable
manager objects become explicit state values that are threaded through
the operations. Python floats are modelled as exact rationals, Python
dicts as insertion-ordered association lists (matching Python dict
semantics: assignment to an existing key replaces in place, a new key is
appended), and the dynamically typed quantity argument as a sum of an
integer and a non-integer numeric value.
-/

set_option autoImplicit false

namespace Ecom

/-- The four exception classes of the source, each carrying its message. -/
inductive Err where
  | validation (msg : String)
  | authentication (msg : String)
  | authorization (msg : String)
  | notFound (msg : String)
deriving DecidableEq

/-- Decidable equality of Except results, so that concrete runs of the
embedded operations can be settled by decide. -/
instance exceptDecEq {ε α : Type} [DecidableEq ε] [DecidableEq α] :
    DecidableEq (Except ε α)
  | .error e1, .error e2 =>
    match decEq e1 e2 with
    | .isTrue h => .isTrue (h ▸ rfl)
    | .isFalse h => .isFalse fun hc => h (Except.error.inj hc)
  | .error _, .ok _ => .isFalse fun hc => Except.noConfusion hc
  | .ok _, .error _ => .isFalse fun hc => Except.noConfusion hc
  | .ok a1, .ok a2 =>
    match decEq a1 a2 with
    | .isTrue h => .isTrue (h ▸ rfl)
    | .isFalse h => .isFalse fun hc => h (Except.ok.inj hc)

/-- A dynamically typed numeric quantity: either a Python int or a
Python float (modelled exactly as a rational). The isinstance check in
validate_quantity distinguishes the two. -/
inductive Qty where
  | intQ (n : Int)
  | floatQ (q : Rat)
deriving DecidableEq

/-- Numeric value of a quantity, as used by arithmetic on it. -/
def Qty.toRat : Qty → Rat
  | .intQ n => (n : Rat)
  | .floatQ q => q

/-- The regex class backslash-w restricted to ASCII: letters, digits, underscore. -/
def isWordChar (c : Char) : Bool := c.isAlpha || c.isDigit || c == '_'

/-- The regex class backslash-s for ASCII: Python whitespace characters. -/
def pyIsSpace (c : Char) : Bool :=
  c == ' ' || c == '\t' || c == '\n' || c == '\r' || c == '\x0b' || c == '\x0c'

/-- Python str.lower for ASCII text, character by character. -/
def pyLower (s : String) : String := ⟨s.data.map Char.toLower⟩

/-- Python str.strip: drop whitespace from both ends. -/
def pyStrip (s : String) : String :=
  ⟨((s.data.dropWhile pyIsSpace).reverse.dropWhile pyIsSpace).reverse⟩

/-- Python str.startswith for a single candidate. -/
def pyStartsWith (s pre : String) : Bool := pre.data.isPrefixOf s.data

/-- Validators.validate_username: required, word characters only, and not
already taken when a list of existing usernames is supplied (the Python
default None is modelled by the empty list at the call sites that omit it). -/
def Validators.validate_username (username : String) (existing : List String) :
    Except Err Bool :=
  if username = "" ∨ pyStrip username = "" then
    .error (.validation "Username is required")
  else if !(username.data.all isWordChar) then
    .error (.validation "Username must contain letters, digits or underscore only")
  else if existing ≠ [] ∧ username ∈ existing then
    .error (.validation "The username is found")
  else
    .ok true

/-- Validators.validate_password: required, minimum length, a digit, a
letter, and a character matching the regex class excluding word
characters and whitespace. -/
def Validators.validate_password (password : String) (min_len : Nat) :
    Except Err Bool :=
  if password = "" then
    .error (.validation "Password is required")
  else if password.length < min_len then
    .error (.validation ("Password must be at least " ++ toString min_len ++ " characters"))
  else if !(password.data.any fun c => c.isDigit) then
    .error (.validation "Password must include at least one digit")
  else if !(password.data.any fun c => c.isAlpha) then
    .error (.validation "Password must include at least one letter")
  else if !(password.data.any fun c => !isWordChar c && !pyIsSpace c) then
    .error (.validation "Password must include at least one special character")
  else
    .ok true

/-- Validators.validate_phonenumber: required, digits only, exactly nine
of them, starting with one of the four fixed prefixes. -/
def Validators.validate_phonenumber (phonenumber : String) : Except Err Bool :=
  if phonenumber = "" then
    .error (.validation "Phone number is required")
  else if !(phonenumber.data.all Char.isDigit) then
    .error (.validation "Phone number must contain digits only")
  else if phonenumber.length ≠ 9 then
    .error (.validation "Phone number must be 9 digits")
  else if !(pyStartsWith phonenumber "71" || pyStartsWith phonenumber "73" ||
            pyStartsWith phonenumber "77" || pyStartsWith phonenumber "78") then
    .error (.validation "Phone number must start with one of: 71, 73, 77, 78")
  else
    .ok true

/-- Validators.validate_usertype: required, case-insensitive membership. -/
def Validators.validate_usertype (usertype : String) : Except Err Bool :=
  if usertype = "" then
    .error (.validation "User type is required")
  else if pyLower usertype ∉ (["admin", "employee", "customer"] : List String) then
    .error (.validation "User type must be one of: admin, employee, customer")
  else
    .ok true

/-- Validators.validate_gender: required, case-insensitive membership. -/
def Validators.validate_gender (gender : String) : Except Err Bool :=
  if gender = "" then
    .error (.validation "Gender is required")
  else if pyLower gender ∉ (["m", "f", "male", "female", "other"] : List String) then
    .error (.validation "Gender value seems invalid")
  else
    .ok true

/-- Validators.validate_product_id: the id must not be the missing value None. -/
def Validators.validate_product_id (pid : Option Int) : Except Err Bool :=
  match pid with
  | none => .error (.validation "Product ID is required")
  | some _ => .ok true

/-- Validators.validate_product_name: required, not whitespace only. -/
def Validators.validate_product_name (name : String) : Except Err Bool :=
  if name = "" ∨ pyStrip name = "" then
    .error (.validation "Product name is required")
  else
    .ok true

/-- Validators.validate_price: a number (always so in the typed
embedding, where the float conversion is the identity) and non-negative. -/
def Validators.validate_price (price : Rat) : Except Err Bool :=
  if price < 0 then
    .error (.validation "Product price must be non-negative")
  else
    .ok true

/-- Validators.validate_quantity: an isinstance int check, then positivity. -/
def Validators.validate_quantity (qty : Qty) : Except Err Bool :=
  match qty with
  | .floatQ _ => .error (.validation "Quantity must be integer")
  | .intQ n =>
    if n ≤ 0 then .error (.validation "Quantity must be positive")
    else .ok true

/-- Insertion-ordered association list insert, matching Python dict
assignment: an existing key is overwritten in place, a new key is
appended at the end. -/
def insertA {κ α : Type} [DecidableEq κ] : List (κ × α) → κ → α → List (κ × α)
  | [], k, v => [(k, v)]
  | (k2, v2) :: rest, k, v =>
    if k2 = k then (k, v) :: rest else (k2, v2) :: insertA rest k v

/-- Python dict.get: first binding of the key, if any. -/
def lookupA {κ α : Type} [DecidableEq κ] : List (κ × α) → κ → Option α
  | [], _ => none
  | (k2, v2) :: rest, k => if k2 = k then some v2 else lookupA rest k

/-- Python del d-of-k: drop the binding of the key. -/
def eraseA {κ α : Type} [DecidableEq κ] : List (κ × α) → κ → List (κ × α)
  | [], _ => []
  | (k2, v2) :: rest, k => if k2 = k then rest else (k2, v2) :: eraseA rest k

/-- Python dict.keys as a list. -/
def keysA {κ α : Type} (l : List (κ × α)) : List κ := l.map fun kv => kv.1

/-- Model: User. -/
structure User where
  username : String
  password : String
  usertype : String
  phonenumber : String
  gender : String
  isactive : Bool
deriving DecidableEq

/-- The serialized dictionary shape of a User. -/
structure UserRec where
  username : String
  password : String
  usertype : String
  phonenumber : String
  gender : String
  isactive : Bool
deriving DecidableEq

/-- The User constructor: validates every field (uniqueness is not
checked here) and lowercases the user type before storing it. -/
def User.init (username password usertype phonenumber gender : String)
    (isactive : Bool) : Except Err User :=
  match Validators.validate_username username [] with
  | .error e => .error e
  | .ok _ =>
  match Validators.validate_password password 8 with
  | .error e => .error e
  | .ok _ =>
  match Validators.validate_usertype usertype with
  | .error e => .error e
  | .ok _ =>
  match Validators.validate_phonenumber phonenumber with
  | .error e => .error e
  | .ok _ =>
  match Validators.validate_gender gender with
  | .error e => .error e
  | .ok _ =>
  .ok ⟨username, password, pyLower usertype, phonenumber, gender, isactive⟩

/-- User.to_dict. -/
def User.to_dict (u : User) : UserRec :=
  ⟨u.username, u.password, u.usertype, u.phonenumber, u.gender, u.isactive⟩

/-- User.from_dict: runs the validating constructor on the record fields. -/
def User.from_dict (d : UserRec) : Except Err User :=
  User.init d.username d.password d.usertype d.phonenumber d.gender d.isactive

/-- Model: Product. -/
structure Product where
  id : Int
  name : String
  price : Rat
  is_active : Bool
deriving DecidableEq

/-- The serialized dictionary shape of a Product. -/
structure ProductRec where
  id : Int
  name : String
  price : Rat
  is_active : Bool
deriving DecidableEq

/-- The Product constructor: validates id, name and price; the float
conversion of an already numeric price is the identity. -/
def Product.init (pid : Int) (name : String) (price : Rat) (is_active : Bool) :
    Except Err Product :=
  match Validators.validate_product_id (some pid) with
  | .error e => .error e
  | .ok _ =>
  match Validators.validate_product_name name with
  | .error e => .error e
  | .ok _ =>
  match Validators.validate_price price with
  | .error e => .error e
  | .ok _ =>
  .ok ⟨pid, name, price, is_active⟩

/-- Product.to_dict. -/
def Product.to_dict (p : Product) : ProductRec := ⟨p.id, p.name, p.price, p.is_active⟩

/-- Product.from_dict. -/
def Product.from_dict (d : ProductRec) : Except Err Product :=
  Product.init d.id d.name d.price d.is_active

/-- A keyword-argument style partial update for Product.update: each
field is either absent from the kwargs or supplied with a value. -/
structure ProductPatch where
  name : Option String
  price : Option Rat
  is_active : Option Bool
deriving DecidableEq

/-- Third step of Product.update: the is_active kwarg (no validation). -/
def Product.updateActive (p : Product) (patch : ProductPatch) :
    Except Err Unit × Product :=
  match patch.is_active with
  | some b => (.ok (), { p with is_active := b })
  | none => (.ok (), p)

/-- Second step of Product.update: the price kwarg. The product mutated
so far is returned even when validation fails, because the Python method
mutates self field by field and a later raise does not undo earlier
assignments. -/
def Product.updatePrice (p : Product) (patch : ProductPatch) :
    Except Err Unit × Product :=
  match patch.price with
  | some pr =>
    match Validators.validate_price pr with
    | .error e => (.error e, p)
    | .ok _ => Product.updateActive { p with price := pr } patch
  | none => Product.updateActive p patch

/-- Product.update: name, then price, then is_active, validating each
supplied field and stopping at the first failure. -/
def Product.update (p : Product) (patch : ProductPatch) :
    Except Err Unit × Product :=
  match patch.name with
  | some n =>
    match Validators.validate_product_name n with
    | .error e => (.error e, p)
    | .ok _ => Product.updatePrice { p with name := n } patch
  | none => Product.updatePrice p patch

/-- Model: OrderItem, the per-line snapshot inside an order. -/
structure OrderItem where
  product_id : Int
  quantity : Qty
  price_at_order : Rat
deriving DecidableEq

/-- The serialized dictionary shape of an OrderItem. -/
structure OrderItemRec where
  product_id : Int
  quantity : Qty
  price_at_order : Rat
deriving DecidableEq

/-- The OrderItem constructor: validates quantity and price. -/
def OrderItem.init (product_id : Int) (quantity : Qty) (price_at_order : Rat) :
    Except Err OrderItem :=
  match Validators.validate_quantity quantity with
  | .error e => .error e
  | .ok _ =>
  match Validators.validate_price price_at_order with
  | .error e => .error e
  | .ok _ =>
  .ok ⟨product_id, quantity, price_at_order⟩

/-- OrderItem.to_dict. -/
def OrderItem.to_dict (it : OrderItem) : OrderItemRec :=
  ⟨it.product_id, it.quantity, it.price_at_order⟩

/-- OrderItem.from_dict. -/
def OrderItem.from_dict (d : OrderItemRec) : Except Err OrderItem :=
  OrderItem.init d.product_id d.quantity d.price_at_order

/-- Model: Order. -/
structure Order where
  order_id : Int
  user_username : String
  items : List OrderItem
  status : String
deriving DecidableEq

/-- The five recognized statuses. -/
def Order.VALID_STATUSES : List String :=
  ["pending", "confirmed", "shipped", "delivered", "cancelled"]

/-- The Order constructor: empty item list, initial status pending. -/
def Order.init (order_id : Int) (user_username : String) : Order :=
  ⟨order_id, user_username, [], "pending"⟩

/-- Order.add_item: append at the end of the item list. -/
def Order.add_item (o : Order) (item : OrderItem) : Order :=
  { o with items := o.items ++ [item] }

/-- Order.calculate_total: running sum of quantity times snapshot price. -/
def Order.calculate_total (o : Order) : Rat :=
  o.items.foldl (fun total it => total + it.quantity.toRat * it.price_at_order) 0

/-- Order.update_status: reject a status outside the valid set, else
overwrite unconditionally. -/
def Order.update_status (o : Order) (new_status : String) : Except Err Order :=
  if new_status ∉ Order.VALID_STATUSES then
    .error (.validation "Invalid status. Must be one of: (pending, confirmed, shipped, delivered, cancelled)")
  else
    .ok { o with status := new_status }

/-- The serialized dictionary shape of an Order. -/
structure OrderRec where
  order_id : Int
  user_username : String
  items : List OrderItemRec
  status : String
deriving DecidableEq

/-- Order.to_dict. -/
def Order.to_dict (o : Order) : OrderRec :=
  ⟨o.order_id, o.user_username, o.items.map OrderItem.to_dict, o.status⟩

/-- The item loop of Order.from_dict: deserialize each item record and
append it to the order being rebuilt. -/
def Order.addItemsFromRecs : List OrderItemRec → Order → Except Err Order
  | [], o => .ok o
  | r :: rest, o =>
    match OrderItem.from_dict r with
    | .error e => .error e
    | .ok it => Order.addItemsFromRecs rest (o.add_item it)

/-- Order.from_dict: rebuild the order, copy the stored status without
validation, then replay the item records. -/
def Order.from_dict (d : OrderRec) : Except Err Order :=
  Order.addItemsFromRecs d.items { Order.init d.order_id d.user_username with status := d.status }

/-- State of UserManager: the users dict keyed by username. -/
structure UMState where
  users : List (String × User)
deriving DecidableEq

/-- UserManager.add_user: validate everything including uniqueness
against the current keys, then construct the User (revalidating), insert
and return it. Any failure leaves the state untouched, since every
raise happens before the insertion. -/
def UserManager.add_user (s : UMState)
    (username password usertype phonenumber gender : String) (isactive : Bool) :
    Except Err User × UMState :=
  match Validators.validate_username username (keysA s.users) with
  | .error e => (.error e, s)
  | .ok _ =>
  match Validators.validate_password password 8 with
  | .error e => (.error e, s)
  | .ok _ =>
  match Validators.validate_usertype usertype with
  | .error e => (.error e, s)
  | .ok _ =>
  match Validators.validate_phonenumber phonenumber with
  | .error e => (.error e, s)
  | .ok _ =>
  match Validators.validate_gender gender with
  | .error e => (.error e, s)
  | .ok _ =>
  match User.init username password usertype phonenumber gender isactive with
  | .error e => (.error e, s)
  | .ok user => (.ok user, ⟨insertA s.users username user⟩)

/-- UserManager.find_user. -/
def UserManager.find_user (s : UMState) (username : String) : Option User :=
  lookupA s.users username

/-- State of ProductManager: the products dict and the id counter. -/
structure PMState where
  products : List (Int × Product)
  next_id : Int
deriving DecidableEq

/-- A freshly constructed ProductManager before any file is loaded. -/
def PMState.initial : PMState := ⟨[], 1⟩

/-- ProductManager.find_product. -/
def ProductManager.find_product (s : PMState) (pid : Int) : Option Product :=
  lookupA s.products pid

/-- ProductManager.add_product: validate, assign the current counter
value as id, insert, bump the counter. -/
def ProductManager.add_product (s : PMState) (name : String) (price : Rat) :
    Except Err Product × PMState :=
  match Validators.validate_product_name name with
  | .error e => (.error e, s)
  | .ok _ =>
  match Validators.validate_price price with
  | .error e => (.error e, s)
  | .ok _ =>
  match Product.init s.next_id name price true with
  | .error e => (.error e, s)
  | .ok product =>
    (.ok product, ⟨insertA s.products s.next_id product, s.next_id + 1⟩)

/-- ProductManager.update_product: the looked-up product is mutated in
place by Product.update, so the store keeps the partially updated
product even when a later field of the patch fails validation. -/
def ProductManager.update_product (s : PMState) (pid : Int) (patch : ProductPatch) :
    Except Err Product × PMState :=
  match lookupA s.products pid with
  | none => (.error (.notFound "Product not found"), s)
  | some prod =>
    match Product.update prod patch with
    | (.error e, prod2) => (.error e, { s with products := insertA s.products pid prod2 })
    | (.ok _, prod2) => (.ok prod2, { s with products := insertA s.products pid prod2 })

/-- ProductManager.delete_product: archive (set inactive, keep the
record) by default, or hard-delete the record when allow_archive is
false. The id counter is never touched. -/
def ProductManager.delete_product (s : PMState) (pid : Int) (allow_archive : Bool) :
    Except Err Bool × PMState :=
  match lookupA s.products pid with
  | none => (.error (.notFound "Product not found"), s)
  | some p =>
    if allow_archive then
      (.ok true, { s with products := insertA s.products pid { p with is_active := false } })
    else
      (.ok true, { s with products := eraseA s.products pid })

/-- ProductManager.save_products: the persisted record list, the dict
values in insertion order. -/
def ProductManager.save_products (s : PMState) : List ProductRec :=
  s.products.map fun kv => kv.2.to_dict

/-- The loop body of ProductManager.load_products: deserialize each
record, insert it, and raise the counter to one past any id at or above
it. A malformed record propagates its error. -/
def ProductManager.loadRecs : List ProductRec → PMState → Except Err PMState
  | [], s => .ok s
  | r :: rest, s =>
    match Product.from_dict r with
    | .error e => .error e
    | .ok product =>
      ProductManager.loadRecs rest
        ⟨insertA s.products product.id product,
         if s.next_id ≤ product.id then product.id + 1 else s.next_id⟩

/-- ProductManager.load_products on a fresh manager, as run by the
constructor when the file exists and parses. -/
def ProductManager.load_products (file : List ProductRec) : Except Err PMState :=
  ProductManager.loadRecs file PMState.initial

/-- State of OrderManager: the orders dict and the order id counter. -/
structure OMState where
  orders : List (Int × Order)
  next_order_id : Int
deriving DecidableEq

/-- A freshly constructed OrderManager before any file is loaded. -/
def OMState.initial : OMState := ⟨[], 1⟩

/-- OrderManager.find_order. -/
def OrderManager.find_order (s : OMState) (order_id : Int) : Option Order :=
  lookupA s.orders order_id

/-- The per-item loop of OrderManager.create_order: look the product up,
reject a missing or inactive product, validate the quantity, then append
a snapshot item carrying the current catalog price. -/
def OrderManager.buildItems (pm : PMState) :
    List (Int × Qty) → Order → Except Err Order
  | [], order => .ok order
  | (pid, qty) :: rest, order =>
    match ProductManager.find_product pm pid with
    | none => .error (.notFound ("Product " ++ toString pid ++ " not found"))
    | some product =>
      if !product.is_active then
        .error (.validation ("Product " ++ toString pid ++ " is not active"))
      else
        match Validators.validate_quantity qty with
        | .error e => .error e
        | .ok _ =>
          match OrderItem.init pid qty product.price with
          | .error e => .error e
          | .ok item => OrderManager.buildItems pm rest (order.add_item item)

/-- OrderManager.create_order: the order is built locally item by item;
only after every item validates is it inserted into the store and the
counter advanced, so a raise anywhere in the loop leaves the manager
state exactly as it was. -/
def OrderManager.create_order (pm : PMState) (s : OMState)
    (customer_username : String) (items : List (Int × Qty)) :
    Except Err Order × OMState :=
  let oid := s.next_order_id
  match OrderManager.buildItems pm items (Order.init oid customer_username) with
  | .error e => (.error e, s)
  | .ok order =>
    (.ok order, ⟨insertA s.orders oid order, s.next_order_id + 1⟩)

/-- OrderManager.update_order_status: look the order up, lowercase the
requested status, and delegate to Order.update_status. -/
def OrderManager.update_order_status (s : OMState) (order_id : Int)
    (new_status : String) : Except Err Order × OMState :=
  match lookupA s.orders order_id with
  | none => (.error (.notFound "Order not found"), s)
  | some order =>
    match order.update_status (pyLower new_status) with
    | .error e => (.error e, s)
    | .ok order2 => (.ok order2, { s with orders := insertA s.orders order_id order2 })

/-- System.login: unknown username, inactive account and wrong password
each raise an AuthenticationError carrying its own message. -/
def System.login (um : UMState) (username password : String) : Except Err User :=
  match UserManager.find_user um username with
  | none => .error (.authentication "Username not found")
  | some user =>
    if !user.isactive then .error (.authentication "User account is not active")
    else if user.password ≠ password then .error (.authentication "Incorrect password")
    else .ok user

/-! Association list lemmas. -/

theorem lookupA_insertA_self {κ α : Type} [DecidableEq κ] (l : List (κ × α))
    (k : κ) (v : α) : lookupA (insertA l k v) k = some v := by
  induction l with
  | nil => simp [insertA, lookupA]
  | cons kv rest ih =>
    obtain ⟨k2, v2⟩ := kv
    by_cases h : k2 = k
    · simp [insertA, h, lookupA]
    · simp [insertA, h, lookupA, ih]

theorem mem_keysA_insertA_self {κ α : Type} [DecidableEq κ] (l : List (κ × α))
    (k : κ) (v : α) : k ∈ keysA (insertA l k v) := by
  induction l with
  | nil => simp [insertA, keysA]
  | cons kv rest ih =>
    obtain ⟨k2, v2⟩ := kv
    by_cases h : k2 = k
    · simp [insertA, h, keysA]
    · simp only [insertA, if_neg h, keysA, List.map_cons, List.mem_cons]
      exact Or.inr ih

theorem insertA_ne_nil {κ α : Type} [DecidableEq κ] (l : List (κ × α))
    (k : κ) (v : α) : insertA l k v ≠ [] := by
  cases l with
  | nil => simp [insertA]
  | cons kv rest =>
    obtain ⟨k2, v2⟩ := kv
    by_cases h : k2 = k <;> simp [insertA, h]

/-! Per-item success and failure predicates for the create_order loop. -/

/-- An item pair that fails one of the checks of the create_order loop:
product absent, product inactive, or quantity not a positive integer. -/
def itemFailsB (pm : PMState) (pid : Int) (qty : Qty) : Bool :=
  match ProductManager.find_product pm pid with
  | none => true
  | some p =>
    !p.is_active ||
      (match qty with
       | .intQ n => decide (n ≤ 0)
       | .floatQ _ => true)

/-- An item pair that passes every check of the create_order loop,
including the non-negativity of the snapshot price revalidated by the
OrderItem constructor. -/
def itemPassesB (pm : PMState) (pid : Int) (qty : Qty) : Bool :=
  match ProductManager.find_product pm pid, qty with
  | some p, .intQ n => p.is_active && decide (0 < n) && decide (0 ≤ p.price)
  | _, _ => false

theorem itemFailsB_false_elim (pm : PMState) (pid : Int) (qty : Qty)
    (h : itemFailsB pm pid qty = false) :
    ∃ p, ProductManager.find_product pm pid = some p ∧ p.is_active = true ∧
      ∃ n : Int, qty = .intQ n ∧ 0 < n := by
  cases hfind : ProductManager.find_product pm pid with
  | none =>
    simp only [itemFailsB.eq_def, hfind] at h
    exact Bool.noConfusion h
  | some p =>
    cases qty with
    | floatQ q =>
      simp only [itemFailsB.eq_def, hfind, Bool.or_eq_false_iff] at h
      exact Bool.noConfusion h.2
    | intQ n =>
      simp only [itemFailsB.eq_def, hfind, Bool.or_eq_false_iff, Bool.not_eq_false',
        decide_eq_false_iff_not, not_le] at h
      exact ⟨p, rfl, h.1, n, rfl, h.2⟩

/-- If the item loop of create_order returns successfully, then every
requested item passed its lookup and validation. -/
theorem buildItems_ok_no_fail (pm : PMState) (items : List (Int × Qty)) :
    ∀ (o o2 : Order), OrderManager.buildItems pm items o = .ok o2 →
      ∀ pq ∈ items, itemFailsB pm pq.1 pq.2 = false := by
  induction items with
  | nil => intro o o2 h pq hpq; exact absurd hpq (List.not_mem_nil pq)
  | cons hd tl ih =>
    obtain ⟨pid, qty⟩ := hd
    intro o o2 h pq hpq
    cases hfind : ProductManager.find_product pm pid with
    | none =>
      simp only [OrderManager.buildItems, hfind] at h
      exact Except.noConfusion h
    | some p =>
      cases hact : p.is_active with
      | false => simp [OrderManager.buildItems, hfind, hact] at h
      | true =>
        simp only [OrderManager.buildItems, hfind, hact, Bool.not_true,
          Bool.false_eq_true, if_false] at h
        cases hq : Validators.validate_quantity qty with
        | error e =>
          simp only [hq] at h
          exact Except.noConfusion h
        | ok b =>
          simp only [hq] at h
          cases hinit : OrderItem.init pid qty p.price with
          | error e =>
            simp only [hinit] at h
            exact Except.noConfusion h
          | ok item =>
            simp only [hinit] at h
            rcases List.mem_cons.mp hpq with heq | hmem
            · subst heq
              cases qty with
              | floatQ q =>
                simp only [Validators.validate_quantity] at hq
                exact Except.noConfusion hq
              | intQ n =>
                simp only [Validators.validate_quantity] at hq
                by_cases hn : n ≤ 0
                · simp only [if_pos hn] at hq
                  exact Except.noConfusion hq
                · simp [itemFailsB.eq_def, hfind, hact, hn]
            · exact ih _ _ h pq hmem

/-- An item pair that passes every check is consumed by the loop, which
continues on the remaining items with the snapshot appended. -/
theorem buildItems_step_pass (pm : PMState) (pid : Int) (qty : Qty)
    (h : itemPassesB pm pid qty = true) (rest : List (Int × Qty)) (o : Order) :
    ∃ o2, OrderManager.buildItems pm ((pid, qty) :: rest) o =
      OrderManager.buildItems pm rest o2 := by
  cases hfind : ProductManager.find_product pm pid with
  | none =>
    simp only [itemPassesB.eq_def, hfind] at h
    exact Bool.noConfusion h
  | some p =>
    cases qty with
    | floatQ q =>
      simp only [itemPassesB.eq_def, hfind] at h
      exact Bool.noConfusion h
    | intQ n =>
      simp only [itemPassesB.eq_def, hfind, Bool.and_eq_true, decide_eq_true_eq] at h
      obtain ⟨⟨hact, hn⟩, hp⟩ := h
      refine ⟨o.add_item ⟨pid, .intQ n, p.price⟩, ?_⟩
      simp [OrderManager.buildItems, hfind, hact, Validators.validate_quantity,
        OrderItem.init, Validators.validate_price, not_le.mpr hn, not_lt.mpr hp]

/-- An item referencing an archived product makes the loop raise the
inactive-product ValidationError as soon as it is reached. -/
theorem buildItems_archived (pm : PMState) (pid : Int) (p : Product)
    (hfind : ProductManager.find_product pm pid = some p)
    (hact : p.is_active = false) (qty : Qty) (rest : List (Int × Qty)) (o : Order) :
    OrderManager.buildItems pm ((pid, qty) :: rest) o =
      .error (.validation ("Product " ++ toString pid ++ " is not active")) := by
  simp [OrderManager.buildItems, hfind, hact]

/-! C1 and C10: the create_order commit discipline. -/

/-- C1: create_order is all-or-nothing. If any requested pair fails its
lookup or validation (absent product, inactive product, or non-positive
or non-integer quantity) the call raises and returns the order store
exactly as it was: same order map and same next order id counter. -/
theorem C1_create_order_all_or_nothing (pm : PMState) (s : OMState) (u : String)
    (items : List (Int × Qty))
    (h : ∃ pq ∈ items, itemFailsB pm pq.1 pq.2 = true) :
    ∃ e, OrderManager.create_order pm s u items = (.error e, s) := by
  obtain ⟨pq, hmem, hfail⟩ := h
  simp only [OrderManager.create_order]
  cases hb : OrderManager.buildItems pm items (Order.init s.next_order_id u) with
  | error e => exact ⟨e, rfl⟩
  | ok o2 =>
    have hff := buildItems_ok_no_fail pm items _ _ hb pq hmem
    rw [hff] at hfail
    exact Bool.noConfusion hfail

/-- Witness for C1: a cart whose second item references the absent
product 2 makes create_order fail and leave the store untouched. -/
theorem C1_witness :
    ∃ e, OrderManager.create_order
        ⟨[(1, ⟨1, "Pen", 5, true⟩)], 2⟩ OMState.initial "u"
        [(1, .intQ 1), (2, .intQ 1)] = (.error e, OMState.initial) :=
  C1_create_order_all_or_nothing ⟨[(1, ⟨1, "Pen", 5, true⟩)], 2⟩ OMState.initial "u"
    [(1, .intQ 1), (2, .intQ 1)] ⟨(2, .intQ 1), by decide, by decide⟩

/-- C10: create_order accepts the empty cart. It stores an order with no
items and status pending, whose total is zero, and advances the order id
counter by one. -/
theorem C10_create_order_empty_cart (pm : PMState) (s : OMState) (u : String) :
    OrderManager.create_order pm s u [] =
      (.ok ⟨s.next_order_id, u, [], "pending"⟩,
       ⟨insertA s.orders s.next_order_id ⟨s.next_order_id, u, [], "pending"⟩,
        s.next_order_id + 1⟩) ∧
    Order.calculate_total ⟨s.next_order_id, u, [], "pending"⟩ = 0 ∧
    OrderManager.find_order (OrderManager.create_order pm s u []).2 s.next_order_id =
      some ⟨s.next_order_id, u, [], "pending"⟩ := by
  refine ⟨rfl, rfl, ?_⟩
  exact lookupA_insertA_self s.orders s.next_order_id ⟨s.next_order_id, u, [], "pending"⟩

/-- C2: an order created from two valid item pairs snapshots the catalog
prices at creation time into its items, its calculate_total is exactly
q1 times price1 plus q2 times price2 at those creation-time prices, and
the total of the stored order is unaffected by any later update of
either product in the catalog, whatever the patch. -/
theorem C2_total_price_snapshot (pm : PMState) (s : OMState) (u : String)
    (p1 p2 n1 n2 : Int) (prod1 prod2 : Product)
    (h1 : ProductManager.find_product pm p1 = some prod1)
    (h2 : ProductManager.find_product pm p2 = some prod2)
    (ha1 : prod1.is_active = true) (ha2 : prod2.is_active = true)
    (hn1 : 0 < n1) (hn2 : 0 < n2)
    (hp1 : 0 ≤ prod1.price) (hp2 : 0 ≤ prod2.price) :
    ∃ s2 : OMState,
      OrderManager.create_order pm s u [(p1, .intQ n1), (p2, .intQ n2)] =
        (.ok ⟨s.next_order_id, u,
              [⟨p1, .intQ n1, prod1.price⟩, ⟨p2, .intQ n2, prod2.price⟩],
              "pending"⟩, s2) ∧
      Order.calculate_total ⟨s.next_order_id, u,
          [⟨p1, .intQ n1, prod1.price⟩, ⟨p2, .intQ n2, prod2.price⟩], "pending"⟩ =
        (n1 : Rat) * prod1.price + (n2 : Rat) * prod2.price ∧
      (∀ patch r pm2, ProductManager.update_product pm p1 patch = (r, pm2) →
        ∀ ord, OrderManager.find_order s2 s.next_order_id = some ord →
          ord.calculate_total = (n1 : Rat) * prod1.price + (n2 : Rat) * prod2.price) ∧
      (∀ patch r pm2, ProductManager.update_product pm p2 patch = (r, pm2) →
        ∀ ord, OrderManager.find_order s2 s.next_order_id = some ord →
          ord.calculate_total = (n1 : Rat) * prod1.price + (n2 : Rat) * prod2.price) := by
  have hb : OrderManager.buildItems pm [(p1, .intQ n1), (p2, .intQ n2)]
      (Order.init s.next_order_id u) =
      .ok ⟨s.next_order_id, u,
           [⟨p1, .intQ n1, prod1.price⟩, ⟨p2, .intQ n2, prod2.price⟩], "pending"⟩ := by
    simp [OrderManager.buildItems, h1, h2, ha1, ha2, Validators.validate_quantity,
      OrderItem.init, Validators.validate_price, not_le.mpr hn1, not_le.mpr hn2,
      not_lt.mpr hp1, not_lt.mpr hp2, Order.init, Order.add_item]
  have htot : Order.calculate_total ⟨s.next_order_id, u,
      [⟨p1, .intQ n1, prod1.price⟩, ⟨p2, .intQ n2, prod2.price⟩], "pending"⟩ =
      (n1 : Rat) * prod1.price + (n2 : Rat) * prod2.price := by
    simp [Order.calculate_total, Qty.toRat]
  refine ⟨⟨insertA s.orders s.next_order_id
      ⟨s.next_order_id, u,
       [⟨p1, .intQ n1, prod1.price⟩, ⟨p2, .intQ n2, prod2.price⟩], "pending"⟩,
      s.next_order_id + 1⟩, ?_, htot, ?_, ?_⟩
  · simp only [OrderManager.create_order, hb]
  · intro patch r pm2 hup ord hord
    rw [OrderManager.find_order] at hord
    rw [lookupA_insertA_self] at hord
    cases hord
    exact htot
  · intro patch r pm2 hup ord hord
    rw [OrderManager.find_order] at hord
    rw [lookupA_insertA_self] at hord
    cases hord
    exact htot

/-- Witness for C2: a catalog with two products priced 5 and 9, a cart
ordering 2 of the first and 3 of the second, total 37. -/
theorem C2_witness :
    ∃ s2 : OMState,
      OrderManager.create_order
          ⟨[(1, ⟨1, "Pen", 5, true⟩), (2, ⟨2, "Book", 9, true⟩)], 3⟩
          OMState.initial "u" [(1, .intQ 2), (2, .intQ 3)] =
        (.ok ⟨1, "u", [⟨1, .intQ 2, 5⟩, ⟨2, .intQ 3, 9⟩], "pending"⟩, s2) ∧
      Order.calculate_total ⟨1, "u", [⟨1, .intQ 2, 5⟩, ⟨2, .intQ 3, 9⟩], "pending"⟩ =
        (2 : Rat) * 5 + (3 : Rat) * 9 ∧
      (∀ patch r pm2, ProductManager.update_product
          ⟨[(1, ⟨1, "Pen", 5, true⟩), (2, ⟨2, "Book", 9, true⟩)], 3⟩ 1 patch = (r, pm2) →
        ∀ ord, OrderManager.find_order s2 1 = some ord →
          ord.calculate_total = (2 : Rat) * 5 + (3 : Rat) * 9) ∧
      (∀ patch r pm2, ProductManager.update_product
          ⟨[(1, ⟨1, "Pen", 5, true⟩), (2, ⟨2, "Book", 9, true⟩)], 3⟩ 2 patch = (r, pm2) →
        ∀ ord, OrderManager.find_order s2 1 = some ord →
          ord.calculate_total = (2 : Rat) * 5 + (3 : Rat) * 9) :=
  C2_total_price_snapshot ⟨[(1, ⟨1, "Pen", 5, true⟩), (2, ⟨2, "Book", 9, true⟩)], 3⟩
    OMState.initial "u" 1 2 2 3 ⟨1, "Pen", 5, true⟩ ⟨2, "Book", 9, true⟩
    (by decide) (by decide) rfl rfl (by decide) (by decide) (by decide) (by decide)

/-- C3 counterexample: after archiving product 1, a cart whose items
reference product 1 does not necessarily fail with a ValidationError:
when an earlier item references the absent product 2, the call fails
with a NotFoundError instead, even though the item list references the
archived product. -/
theorem C3_counterexample :
    (ProductManager.delete_product ⟨[(1, ⟨1, "Pen", 5, true⟩)], 2⟩ 1 true).1 = .ok true ∧
    ProductManager.find_product
        (ProductManager.delete_product ⟨[(1, ⟨1, "Pen", 5, true⟩)], 2⟩ 1 true).2 1 =
      some ⟨1, "Pen", 5, false⟩ ∧
    (1 : Int) ∈ ([(2, Qty.intQ 1), (1, Qty.intQ 1)] : List (Int × Qty)).map (fun pq => pq.1) ∧
    OrderManager.create_order
        (ProductManager.delete_product ⟨[(1, ⟨1, "Pen", 5, true⟩)], 2⟩ 1 true).2
        OMState.initial "u" [(2, .intQ 1), (1, .intQ 1)] =
      (.error (.notFound "Product 2 not found"), OMState.initial) := by
  decide

/-- C3 as amended: archiving an existing product succeeds, find still
returns it with active set to false, and no later create_order whose
item list references it can succeed; the raised error is the
inactive-product ValidationError whenever every item placed before the
archived one passes its own checks (an earlier failing item raises its
own error first, which may be a NotFoundError). -/
theorem C3_archive_blocks_ordering (pm : PMState) (pid : Int) (p : Product)
    (hfind : ProductManager.find_product pm pid = some p) :
    (ProductManager.delete_product pm pid true).1 = .ok true ∧
    ProductManager.find_product (ProductManager.delete_product pm pid true).2 pid =
      some { p with is_active := false } ∧
    (∀ om u (items : List (Int × Qty)), pid ∈ items.map (fun pq => pq.1) →
      ∀ ord s2, OrderManager.create_order (ProductManager.delete_product pm pid true).2
          om u items ≠ (.ok ord, s2)) ∧
    (∀ om u (pre rest : List (Int × Qty)) (q : Qty),
      (∀ pq ∈ pre, itemPassesB (ProductManager.delete_product pm pid true).2 pq.1 pq.2 = true) →
      OrderManager.create_order (ProductManager.delete_product pm pid true).2
          om u (pre ++ (pid, q) :: rest) =
        (.error (.validation ("Product " ++ toString pid ++ " is not active")), om)) := by
  have hl : lookupA pm.products pid = some p := hfind
  have hdel : ProductManager.delete_product pm pid true =
      (.ok true, ⟨insertA pm.products pid { p with is_active := false }, pm.next_id⟩) := by
    simp [ProductManager.delete_product, hl]
  have hfind2 : ProductManager.find_product
      (⟨insertA pm.products pid { p with is_active := false }, pm.next_id⟩ : PMState) pid =
      some { p with is_active := false } :=
    lookupA_insertA_self pm.products pid { p with is_active := false }
  refine ⟨by rw [hdel], by rw [hdel]; exact hfind2, ?_, ?_⟩
  · intro om u items hmem ord s2 hc
    rw [hdel] at hc
    simp only [OrderManager.create_order] at hc
    cases hb : OrderManager.buildItems
        (⟨insertA pm.products pid { p with is_active := false }, pm.next_id⟩ : PMState)
        items (Order.init om.next_order_id u) with
    | error e => rw [hb] at hc; simp at hc
    | ok o2 =>
      obtain ⟨pq, hpq, hpid⟩ := List.mem_map.mp hmem
      have hff := buildItems_ok_no_fail _ items _ _ hb pq hpq
      obtain ⟨pr, hprf, hpract, _⟩ := itemFailsB_false_elim _ pq.1 pq.2 hff
      rw [hpid] at hprf
      have h3 := hfind2.symm.trans hprf
      injection h3 with h4
      rw [← h4] at hpract
      exact Bool.noConfusion hpract
  · intro om u pre rest q hpass
    rw [hdel]
    rw [hdel] at hpass
    have key : ∀ (pre2 : List (Int × Qty)),
        (∀ pq ∈ pre2, itemPassesB
          (⟨insertA pm.products pid { p with is_active := false }, pm.next_id⟩ : PMState)
          pq.1 pq.2 = true) →
        ∀ o, OrderManager.buildItems
          (⟨insertA pm.products pid { p with is_active := false }, pm.next_id⟩ : PMState)
          (pre2 ++ (pid, q) :: rest) o =
          .error (.validation ("Product " ++ toString pid ++ " is not active")) := by
      intro pre2
      induction pre2 with
      | nil =>
        intro _ o
        exact buildItems_archived _ pid { p with is_active := false } hfind2 rfl q rest o
      | cons hd tlp ih =>
        intro hp o
        obtain ⟨a, b⟩ := hd
        obtain ⟨o2, hstep⟩ := buildItems_step_pass _ a b
          (hp (a, b) (List.mem_cons_self (a, b) tlp)) (tlp ++ (pid, q) :: rest) o
        rw [List.cons_append, hstep]
        exact ih (fun pq hpq => hp pq (List.mem_cons_of_mem (a, b) hpq)) o2
    simp only [OrderManager.create_order, key pre hpass]

/-- Witness for the amended C3, at a one-product catalog: archiving
product 1 succeeds, it stays findable as inactive, no cart referencing
it succeeds, and the ValidationError surfaces when the earlier items
pass. -/
theorem C3_witness :
    (ProductManager.delete_product ⟨[(1, ⟨1, "Pen", 5, true⟩)], 2⟩ 1 true).1 = .ok true ∧
    ProductManager.find_product
        (ProductManager.delete_product ⟨[(1, ⟨1, "Pen", 5, true⟩)], 2⟩ 1 true).2 1 =
      some ⟨1, "Pen", 5, false⟩ ∧
    (∀ om u (items : List (Int × Qty)), (1 : Int) ∈ items.map (fun pq => pq.1) →
      ∀ ord s2, OrderManager.create_order
          (ProductManager.delete_product ⟨[(1, ⟨1, "Pen", 5, true⟩)], 2⟩ 1 true).2
          om u items ≠ (.ok ord, s2)) ∧
    (∀ om u (pre rest : List (Int × Qty)) (q : Qty),
      (∀ pq ∈ pre, itemPassesB
        (ProductManager.delete_product ⟨[(1, ⟨1, "Pen", 5, true⟩)], 2⟩ 1 true).2
        pq.1 pq.2 = true) →
      OrderManager.create_order
          (ProductManager.delete_product ⟨[(1, ⟨1, "Pen", 5, true⟩)], 2⟩ 1 true).2
          om u (pre ++ (1, q) :: rest) =
        (.error (.validation ("Product " ++ toString (1 : Int) ++ " is not active")), om)) :=
  C3_archive_blocks_ordering ⟨[(1, ⟨1, "Pen", 5, true⟩)], 2⟩ 1 ⟨1, "Pen", 5, true⟩ (by decide)

/-! C4: serialization round trips. -/

/-- A quantity that the validators accept: a positive int. -/
def qtyPos : Qty → Bool
  | .intQ n => decide (0 < n)
  | .floatQ _ => false

/-- A User value as produced by the validating constructor: every field
passes its validator and the stored usertype is one of the lowercase
role names (the constructor lowercases it). -/
abbrev User.wf (u : User) : Prop :=
  Validators.validate_username u.username [] = .ok true ∧
  Validators.validate_password u.password 8 = .ok true ∧
  u.usertype ∈ (["admin", "employee", "customer"] : List String) ∧
  Validators.validate_phonenumber u.phonenumber = .ok true ∧
  Validators.validate_gender u.gender = .ok true

/-- A Product value as produced by the validating constructor. -/
abbrev Product.wf (p : Product) : Prop :=
  Validators.validate_product_name p.name = .ok true ∧ 0 ≤ p.price

/-- An OrderItem value as produced by the validating constructor. -/
abbrev OrderItem.wf (it : OrderItem) : Prop :=
  qtyPos it.quantity = true ∧ 0 ≤ it.price_at_order

/-- An Order whose items all pass the item validators. The status is
unconstrained because Order.from_dict copies it back without validation. -/
abbrev Order.wf (o : Order) : Prop := ∀ it ∈ o.items, it.wf

theorem usertype_ok :
    ∀ ut ∈ (["admin", "employee", "customer"] : List String),
      Validators.validate_usertype ut = .ok true := by decide

theorem usertype_toLower :
    ∀ ut ∈ (["admin", "employee", "customer"] : List String),
      pyLower ut = ut := by decide

theorem user_from_to (u : User) (h : u.wf) : User.from_dict u.to_dict = .ok u := by
  obtain ⟨h1, h2, h3, h4, h5⟩ := h
  have hu := usertype_ok u.usertype h3
  have htl := usertype_toLower u.usertype h3
  simp only [User.from_dict, User.to_dict, User.init, h1, h2, hu, h4, h5, htl]

theorem product_from_to (p : Product) (h : p.wf) :
    Product.from_dict p.to_dict = .ok p := by
  simp only [Product.from_dict, Product.to_dict, Product.init,
    Validators.validate_product_id, Validators.validate_price,
    if_neg (not_lt.mpr h.2), h.1]

theorem orderitem_from_to (it : OrderItem) (h : it.wf) :
    OrderItem.from_dict it.to_dict = .ok it := by
  obtain ⟨hq, hp⟩ := h
  obtain ⟨pid, q, pr⟩ := it
  cases q with
  | floatQ x => exact Bool.noConfusion hq
  | intQ n =>
    have hn : 0 < n := of_decide_eq_true hq
    simp only [OrderItem.from_dict, OrderItem.to_dict, OrderItem.init,
      Validators.validate_quantity, if_neg (not_le.mpr hn),
      Validators.validate_price, if_neg (not_lt.mpr hp)]

theorem items_roundtrip (items : List OrderItem) (h : ∀ it ∈ items, it.wf) :
    ∀ o : Order, Order.addItemsFromRecs (items.map OrderItem.to_dict) o =
      .ok { o with items := o.items ++ items } := by
  induction items with
  | nil =>
    intro o
    obtain ⟨a, b, c, d⟩ := o
    simp [Order.addItemsFromRecs]
  | cons it tl ih =>
    intro o
    obtain ⟨a, b, c, d⟩ := o
    have h1 := orderitem_from_to it (h it (List.mem_cons_self it tl))
    simp only [List.map_cons, Order.addItemsFromRecs, h1,
      ih fun x hx => h x (List.mem_cons_of_mem it hx)]
    simp [Order.add_item]

theorem order_from_to (o : Order) (h : o.wf) : Order.from_dict o.to_dict = .ok o := by
  obtain ⟨oid, un, items, st⟩ := o
  have hi := items_roundtrip items h ⟨oid, un, [], st⟩
  simp only [Order.from_dict, Order.to_dict, Order.init] at hi ⊢
  simpa using hi

/-- C4: serialization round-trips field for field. For every User,
Product, OrderItem and Order value that the validating constructors can
produce, from_dict after to_dict succeeds and returns the value
unchanged, including, for an Order, the item sequence in order and the
stored status. -/
theorem C4_serialization_roundtrip :
    (∀ u : User, u.wf → User.from_dict u.to_dict = .ok u) ∧
    (∀ p : Product, p.wf → Product.from_dict p.to_dict = .ok p) ∧
    (∀ it : OrderItem, it.wf → OrderItem.from_dict it.to_dict = .ok it) ∧
    (∀ o : Order, o.wf → Order.from_dict o.to_dict = .ok o) :=
  ⟨user_from_to, product_from_to, orderitem_from_to, order_from_to⟩

/-- Witness for C4 at concrete values of all four entity kinds. -/
theorem C4_witness :
    User.from_dict (User.to_dict ⟨"alice", "Secret1!", "customer", "771234567", "f", true⟩) =
      .ok ⟨"alice", "Secret1!", "customer", "771234567", "f", true⟩ ∧
    Product.from_dict (Product.to_dict ⟨1, "Pen", 5, true⟩) = .ok ⟨1, "Pen", 5, true⟩ ∧
    OrderItem.from_dict (OrderItem.to_dict ⟨1, .intQ 2, 5⟩) = .ok ⟨1, .intQ 2, 5⟩ ∧
    Order.from_dict (Order.to_dict ⟨7, "alice", [⟨1, .intQ 2, 5⟩], "shipped"⟩) =
      .ok ⟨7, "alice", [⟨1, .intQ 2, 5⟩], "shipped"⟩ :=
  ⟨C4_serialization_roundtrip.1 ⟨"alice", "Secret1!", "customer", "771234567", "f", true⟩
      (by constructor <;> decide),
   C4_serialization_roundtrip.2.1 ⟨1, "Pen", 5, true⟩ (by constructor <;> decide),
   C4_serialization_roundtrip.2.2.1 ⟨1, .intQ 2, 5⟩ (by constructor <;> decide),
   C4_serialization_roundtrip.2.2.2 ⟨7, "alice", [⟨1, .intQ 2, 5⟩], "shipped"⟩ (by decide)⟩

/-- C5 counterexample: the string abcd123_ is non-empty, has length at
least 8, contains a digit, contains a letter, and contains a character
(the underscore) that is neither alphanumeric nor whitespace, yet the
validator rejects it: the special-character class of the code excludes
the underscore, because it is a word character. -/
theorem C5_counterexample :
    ("abcd123_" : String) ≠ "" ∧
    8 ≤ ("abcd123_" : String).length ∧
    (∃ c ∈ ("abcd123_" : String).data, c.isDigit = true) ∧
    (∃ c ∈ ("abcd123_" : String).data, c.isAlpha = true) ∧
    (∃ c ∈ ("abcd123_" : String).data, c.isAlphanum = false ∧ pyIsSpace c = false) ∧
    Validators.validate_password "abcd123_" 8 =
      .error (.validation "Password must include at least one special character") := by
  decide

/-- C5 as amended: the password validator accepts a string if and only
if it is non-empty, has length at least 8, contains a digit, contains a
letter, and contains a character that is not a word character (not
alphanumeric and not an underscore) and not whitespace. -/
theorem C5_password_rule (p : String) :
    Validators.validate_password p 8 = .ok true ↔
      (p ≠ "" ∧ 8 ≤ p.length ∧
       (∃ c ∈ p.data, c.isDigit = true) ∧
       (∃ c ∈ p.data, c.isAlpha = true) ∧
       (∃ c ∈ p.data, isWordChar c = false ∧ pyIsSpace c = false)) := by
  unfold Validators.validate_password
  split_ifs with h1 h2 h3 h4 h5
  · simp [h1]
  · simp [h1, not_le.mpr h2]
  · simp only [Bool.not_eq_true', List.any_eq_false] at h3
    constructor
    · intro hc; exact hc.elim
    · rintro ⟨-, -, ⟨c, hc, hd⟩, -, -⟩
      exact absurd hd (by simpa using h3 c hc)
  · simp only [Bool.not_eq_true', List.any_eq_false] at h4
    constructor
    · intro hc; exact hc.elim
    · rintro ⟨-, -, -, ⟨c, hc, hd⟩, -⟩
      exact absurd hd (by simpa using h4 c hc)
  · simp only [Bool.not_eq_true', List.any_eq_false] at h5
    constructor
    · intro hc; exact hc.elim
    · rintro ⟨-, -, -, -, ⟨c, hc, hd⟩⟩
      have := h5 c hc
      simp only [Bool.and_eq_true, Bool.not_eq_true'] at this
      exact this ⟨hd.1, hd.2⟩
  · simp only [Bool.not_eq_true', Bool.not_eq_false] at h3 h4 h5
    simp only [List.any_eq_true] at h3 h4 h5
    refine iff_of_true rfl ⟨h1, not_lt.mp h2, h3, h4, ?_⟩
    obtain ⟨c, hc, hb⟩ := h5
    simp only [Bool.and_eq_true, Bool.not_eq_true'] at hb
    exact ⟨c, hc, hb.1, hb.2⟩

/-- Witness for the amended C5: a password whose special character is an
exclamation mark is accepted. -/
theorem C5_witness : Validators.validate_password "Abcdef1!" 8 = .ok true :=
  (C5_password_rule "Abcdef1!").mpr (by decide)

/-! C6: product id allocation. -/

/-- The mutating catalog operations available during one manager
lifetime (between constructions, hence between file loads). -/
inductive PMOp where
  | addP (name : String) (price : Rat)
  | updateP (pid : Int) (patch : ProductPatch)
  | removeP (pid : Int) (allow_archive : Bool)
deriving DecidableEq

/-- Execute one catalog operation, keeping the resulting state whether
or not the operation raised. -/
def PMStep (s : PMState) : PMOp → PMState
  | .addP name price => (ProductManager.add_product s name price).2
  | .updateP pid patch => (ProductManager.update_product s pid patch).2
  | .removeP pid b => (ProductManager.delete_product s pid b).2

/-- Execute a sequence of catalog operations. -/
def PMRun (s : PMState) (ops : List PMOp) : PMState := ops.foldl PMStep s

theorem product_init_ok (pid : Int) (name : String) (price : Rat) (b : Bool)
    (p : Product) (h : Product.init pid name price b = .ok p) :
    p = ⟨pid, name, price, b⟩ := by
  simp only [Product.init, Validators.validate_product_id] at h
  cases hv : Validators.validate_product_name name with
  | error e => simp [hv] at h
  | ok x =>
    simp only [hv] at h
    cases hp : Validators.validate_price price with
    | error e => simp [hp] at h
    | ok y =>
      simp only [hp] at h
      exact (Except.ok.inj h).symm

theorem pm_step_mono (s : PMState) (op : PMOp) : s.next_id ≤ (PMStep s op).next_id := by
  cases op with
  | addP name price =>
    simp only [PMStep, ProductManager.add_product]
    cases hv : Validators.validate_product_name name with
    | error e => simp [hv]
    | ok x =>
      cases hp : Validators.validate_price price with
      | error e => simp [hv, hp]
      | ok y =>
        cases hi : Product.init s.next_id name price true with
        | error e => simp [hv, hp, hi]
        | ok p =>
          simp only [hv, hp, hi]
          exact le_of_lt (lt_add_one _)
  | updateP pid patch =>
    simp only [PMStep, ProductManager.update_product]
    cases hl : lookupA s.products pid with
    | none => simp [hl]
    | some prod =>
      cases hu : Product.update prod patch with
      | mk r prod2 =>
        cases r with
        | error e => simp [hl, hu]
        | ok x => simp [hl, hu]
  | removeP pid b =>
    simp only [PMStep, ProductManager.delete_product]
    cases hl : lookupA s.products pid with
    | none => simp [hl]
    | some p => cases b <;> simp [hl]

theorem pm_run_mono (s : PMState) (ops : List PMOp) :
    s.next_id ≤ (PMRun s ops).next_id := by
  induction ops generalizing s with
  | nil => exact le_refl _
  | cons op rest ih => exact le_trans (pm_step_mono s op) (ih (PMStep s op))

theorem add_product_ok_id (s : PMState) (name : String) (price : Rat)
    (prod : Product) (s2 : PMState)
    (h : ProductManager.add_product s name price = (.ok prod, s2)) :
    prod.id = s.next_id ∧ s2.next_id = s.next_id + 1 := by
  simp only [ProductManager.add_product] at h
  cases hv : Validators.validate_product_name name with
  | error e => simp [hv] at h
  | ok x =>
    simp only [hv] at h
    cases hp : Validators.validate_price price with
    | error e => simp [hp] at h
    | ok y =>
      simp only [hp] at h
      cases hi : Product.init s.next_id name price true with
      | error e => simp [hi] at h
      | ok p2 =>
        simp only [hi, Prod.mk.injEq] at h
        obtain ⟨ha, hb⟩ := h
        have hpp := product_init_ok _ _ _ _ _ hi
        constructor
        · rw [← Except.ok.inj ha, hpp]
        · rw [← hb]

/-- C6 as amended: within one manager lifetime product ids are a
monotone counter and are never reused: every operation leaves the
counter at least where it was, a successful add returns the current
counter value and advances it, and across any sequence of further
operations (including hard deletions) a later successful add always
returns a strictly larger id than an earlier one. (Across a save and a
constructor reload the counter is instead recomputed as one past the
largest stored id, so a hard-deleted top id can be reassigned — see the
counterexample.) -/
theorem C6_product_id_monotone :
    (∀ s op, s.next_id ≤ (PMStep s op).next_id) ∧
    (∀ s ops, s.next_id ≤ (PMRun s ops).next_id) ∧
    (∀ s name price prod s2, ProductManager.add_product s name price = (.ok prod, s2) →
      prod.id = s.next_id ∧ s2.next_id = s.next_id + 1) ∧
    (∀ s name price prod s2 ops name2 price2 prod2 s3,
      ProductManager.add_product s name price = (.ok prod, s2) →
      ProductManager.add_product (PMRun s2 ops) name2 price2 = (.ok prod2, s3) →
      prod.id < prod2.id) := by
  refine ⟨pm_step_mono, pm_run_mono, add_product_ok_id, ?_⟩
  intro s name price prod s2 ops name2 price2 prod2 s3 h1 h2
  obtain ⟨hid1, hnext⟩ := add_product_ok_id s name price prod s2 h1
  obtain ⟨hid2, -⟩ := add_product_ok_id _ name2 price2 prod2 s3 h2
  have hm := pm_run_mono s2 ops
  omega

/-- Witness for the amended C6: adding Pen, hard-deleting it, then
adding Gum still yields a strictly larger id within the same lifetime. -/
theorem C6_witness :
    (⟨1, "Pen", 5, true⟩ : Product).id < (⟨2, "Gum", 3, true⟩ : Product).id :=
  C6_product_id_monotone.2.2.2 PMState.initial "Pen" 5 ⟨1, "Pen", 5, true⟩
    ⟨[(1, ⟨1, "Pen", 5, true⟩)], 2⟩ [.removeP 1 false] "Gum" 3
    ⟨2, "Gum", 3, true⟩ ⟨[(2, ⟨2, "Gum", 3, true⟩)], 3⟩ (by decide) (by decide)

/-- First session of the C6 counterexample: add Pen (id 1), add Book
(id 2), hard-delete product 2, save to file. -/
def pmSession1a : PMState := (ProductManager.add_product PMState.initial "Pen" 5).2

/-- Second state of the first session, after adding Book. -/
def pmSession1b : PMState := (ProductManager.add_product pmSession1a "Book" 9).2

/-- Third state of the first session, after hard-deleting product 2. -/
def pmSession1c : PMState := (ProductManager.delete_product pmSession1b 2 false).2

/-- The file persisted at the end of the first session. -/
def pmFile : List ProductRec := ProductManager.save_products pmSession1c

/-- C6 counterexample: the claim extends the never-reuse guarantee
across persistence load and save, but the counter is not persisted: it
is rebuilt as one past the largest stored id. Book receives id 2 in the
first session; after Book is hard-deleted and the store is saved and
reloaded by a new manager, the loaded counter is 2 again, and the next
add returns id 2 a second time. -/
theorem C6_counterexample :
    (ProductManager.add_product pmSession1a "Book" 9).1 = .ok ⟨2, "Book", 9, true⟩ ∧
    ProductManager.load_products pmFile = .ok ⟨[(1, ⟨1, "Pen", 5, true⟩)], 2⟩ ∧
    (ProductManager.add_product ⟨[(1, ⟨1, "Pen", 5, true⟩)], 2⟩ "Gum" 3).1 =
      .ok ⟨2, "Gum", 3, true⟩ := by
  decide

/-- C7 counterexample: the uppercase request SHIPPED is not one of the
five recognized status strings, yet on an existing pending order
update_order_status succeeds and stores the lowercased value, because
the manager lowercases the requested status before the membership
check. -/
theorem C7_counterexample :
    ("SHIPPED" ∉ Order.VALID_STATUSES) ∧
    OrderManager.update_order_status ⟨[(1, ⟨1, "bob", [], "pending"⟩)], 2⟩ 1 "SHIPPED" =
      (.ok ⟨1, "bob", [], "shipped"⟩, ⟨[(1, ⟨1, "bob", [], "shipped"⟩)], 2⟩) := by
  decide

/-- C7 as amended: update_order_status fails with NotFoundError when the
order id is absent, leaving the store unchanged; otherwise it lowercases
the requested status, fails with ValidationError and leaves the stored
status unchanged when the lowercased status is not one of the five
recognized statuses, and otherwise overwrites the stored status with the
lowercased value unconditionally, whatever the current status. -/
theorem C7_update_status_rule (s : OMState) (oid : Int) (ns : String) :
    (OrderManager.find_order s oid = none →
      OrderManager.update_order_status s oid ns =
        (.error (.notFound "Order not found"), s)) ∧
    (∀ ord, OrderManager.find_order s oid = some ord →
      (pyLower ns ∉ Order.VALID_STATUSES →
        ∃ m, OrderManager.update_order_status s oid ns =
          (.error (.validation m), s)) ∧
      (pyLower ns ∈ Order.VALID_STATUSES →
        OrderManager.update_order_status s oid ns =
          (.ok { ord with status := pyLower ns },
           ⟨insertA s.orders oid { ord with status := pyLower ns }, s.next_order_id⟩) ∧
        OrderManager.find_order (OrderManager.update_order_status s oid ns).2 oid =
          some { ord with status := pyLower ns })) := by
  constructor
  · intro h
    have h2 : lookupA s.orders oid = none := h
    simp [OrderManager.update_order_status, h2]
  · intro ord h
    have h2 : lookupA s.orders oid = some ord := h
    constructor
    · intro hmem
      refine ⟨"Invalid status. Must be one of: (pending, confirmed, shipped, delivered, cancelled)", ?_⟩
      simp [OrderManager.update_order_status, h2, Order.update_status, hmem]
    · intro hmem
      have heq : OrderManager.update_order_status s oid ns =
          (.ok { ord with status := pyLower ns },
           ⟨insertA s.orders oid { ord with status := pyLower ns }, s.next_order_id⟩) := by
        simp [OrderManager.update_order_status, h2, Order.update_status, hmem]
      refine ⟨heq, ?_⟩
      rw [heq]
      exact lookupA_insertA_self s.orders oid { ord with status := pyLower ns }

/-- Witness for the amended C7: a lowercase shipped request overwrites a
pending order, an absent order id reports NotFoundError, and a bogus
status reports ValidationError with the store unchanged. -/
theorem C7_witness :
    OrderManager.update_order_status ⟨[(1, ⟨1, "bob", [], "pending"⟩)], 2⟩ 1 "shipped" =
      (.ok ⟨1, "bob", [], "shipped"⟩, ⟨[(1, ⟨1, "bob", [], "shipped"⟩)], 2⟩) ∧
    OrderManager.update_order_status ⟨[(1, ⟨1, "bob", [], "pending"⟩)], 2⟩ 5 "shipped" =
      (.error (.notFound "Order not found"), ⟨[(1, ⟨1, "bob", [], "pending"⟩)], 2⟩) ∧
    (∃ m, OrderManager.update_order_status ⟨[(1, ⟨1, "bob", [], "pending"⟩)], 2⟩ 1 "bogus" =
      (.error (.validation m), ⟨[(1, ⟨1, "bob", [], "pending"⟩)], 2⟩)) :=
  ⟨(((C7_update_status_rule ⟨[(1, ⟨1, "bob", [], "pending"⟩)], 2⟩ 1 "shipped").2
      ⟨1, "bob", [], "pending"⟩ (by decide)).2 (by decide)).1,
   (C7_update_status_rule ⟨[(1, ⟨1, "bob", [], "pending"⟩)], 2⟩ 5 "shipped").1 (by decide),
   ((C7_update_status_rule ⟨[(1, ⟨1, "bob", [], "pending"⟩)], 2⟩ 1 "bogus").2
      ⟨1, "bob", [], "pending"⟩ (by decide)).1 (by decide)⟩

/-- C8 counterexample: the three login failure causes all raise
AuthenticationError, but the message attached to each failure identifies
its cause: an unknown username reports one message and a wrong password
on an existing active account reports a different one, so the reported
failures do distinguish the cause. -/
theorem C8_counterexample :
    System.login ⟨[("alice", ⟨"alice", "Secret1!", "customer", "771234567", "f", true⟩)]⟩
        "bob" "x" = .error (.authentication "Username not found") ∧
    System.login ⟨[("alice", ⟨"alice", "Secret1!", "customer", "771234567", "f", true⟩)]⟩
        "alice" "wrong" = .error (.authentication "Incorrect password") ∧
    ("Username not found" : String) ≠ "Incorrect password" := by
  decide

/-- C8 as amended: login returns the stored User exactly when the
username resolves, the account is active and the password matches; each
failing case raises an AuthenticationError, all of the same error kind,
but carrying a cause-specific message. -/
theorem C8_login_rule (um : UMState) (username password : String) :
    (UserManager.find_user um username = none →
      System.login um username password =
        .error (.authentication "Username not found")) ∧
    (∀ user, UserManager.find_user um username = some user →
      (user.isactive = false →
        System.login um username password =
          .error (.authentication "User account is not active")) ∧
      (user.isactive = true → user.password ≠ password →
        System.login um username password =
          .error (.authentication "Incorrect password")) ∧
      (user.isactive = true → user.password = password →
        System.login um username password = .ok user)) := by
  constructor
  · intro h
    simp [System.login, h]
  · intro user h
    refine ⟨?_, ?_, ?_⟩
    · intro ha; simp [System.login, h, ha]
    · intro ha hp; simp [System.login, h, ha, hp]
    · intro ha hp; simp [System.login, h, ha, hp]

/-- Witness for the amended C8: the stored user logs in with the right
password. -/
theorem C8_witness :
    System.login ⟨[("alice", ⟨"alice", "Secret1!", "customer", "771234567", "f", true⟩)]⟩
        "alice" "Secret1!" =
      .ok ⟨"alice", "Secret1!", "customer", "771234567", "f", true⟩ :=
  ((C8_login_rule ⟨[("alice", ⟨"alice", "Secret1!", "customer", "771234567", "f", true⟩)]⟩
      "alice" "Secret1!").2
    ⟨"alice", "Secret1!", "customer", "771234567", "f", true⟩ (by decide)).2.2 rfl rfl

/-- C9: once add_user accepts a username into the store, a second
add_user with the same username fails with the duplicate-username
ValidationError whatever the other argument values, and the store is
returned exactly as the failed call found it. -/
theorem C9_username_unique (s : UMState) (u pw t ph g : String) (a : Bool)
    (user : User) (s2 : UMState)
    (h : UserManager.add_user s u pw t ph g a = (.ok user, s2)) :
    ∀ pw2 t2 ph2 g2 a2, UserManager.add_user s2 u pw2 t2 ph2 g2 a2 =
      (.error (.validation "The username is found"), s2) := by
  intro pw2 t2 ph2 g2 a2
  simp only [UserManager.add_user] at h
  cases hv : Validators.validate_username u (keysA s.users) with
  | error e => simp [hv] at h
  | ok b =>
    simp only [hv] at h
    cases hp : Validators.validate_password pw 8 with
    | error e => simp [hp] at h
    | ok b2 =>
      simp only [hp] at h
      cases ht : Validators.validate_usertype t with
      | error e => simp [ht] at h
      | ok b3 =>
        simp only [ht] at h
        cases hph : Validators.validate_phonenumber ph with
        | error e => simp [hph] at h
        | ok b4 =>
          simp only [hph] at h
          cases hg : Validators.validate_gender g with
          | error e => simp [hg] at h
          | ok b5 =>
            simp only [hg] at h
            cases hi : User.init u pw t ph g a with
            | error e => simp [hi] at h
            | ok user0 =>
              simp only [hi, Prod.mk.injEq] at h
              obtain ⟨-, hs2⟩ := h
              subst hs2
              have hne : keysA (insertA s.users u user0) ≠ [] := by
                intro hc
                exact insertA_ne_nil s.users u user0 (List.map_eq_nil_iff.mp hc)
              have hmem := mem_keysA_insertA_self s.users u user0
              rw [Validators.validate_username] at hv
              split_ifs at hv with c1 c2 c3
              have hvu : Validators.validate_username u (keysA (insertA s.users u user0)) =
                  .error (.validation "The username is found") := by
                rw [Validators.validate_username, if_neg c1, if_neg c2,
                  if_pos ⟨hne, hmem⟩]
              simp only [UserManager.add_user, hvu]

/-- Witness for C9: alice is accepted into an empty store, and a second
add with username alice and different other fields fails with the
duplicate error, leaving the one-user store unchanged. -/
theorem C9_witness :
    UserManager.add_user
        ⟨[("alice", ⟨"alice", "Secret1!", "customer", "771234567", "f", true⟩)]⟩
        "alice" "Another9?" "admin" "731111111" "m" false =
      (.error (.validation "The username is found"),
       ⟨[("alice", ⟨"alice", "Secret1!", "customer", "771234567", "f", true⟩)]⟩) :=
  C9_username_unique ⟨[]⟩ "alice" "Secret1!" "customer" "771234567" "f" true
    ⟨"alice", "Secret1!", "customer", "771234567", "f", true⟩
    ⟨[("alice", ⟨"alice", "Secret1!", "customer", "771234567", "f", true⟩)]⟩
    (by decide) "Another9?" "admin" "731111111" "m" false

end Ecom
